import Mathlib

/-!
Shallow embedding of the Aesteria RPG engine (src/models/character.py,
src/models/inventory.py, src/models/monsters.py, src/main.py) together with
proofs about its combat-resolution and character-progression core.

Modelling conventions:
* SQLAlchemy `Float` columns are embedded as exact rationals; the game only
  ever adds, subtracts, multiplies, and clamps these values, so rational
  arithmetic mirrors the source computations (scenario levels keep the
  intermediate values exactly representable).
* Python `int(x)` on the non-negative products used by the damage formulas
  coincides with the floor function, embedded via Int.floor.
* `level` and `experience` are Integer columns that start at 1 and 0 and are
  only ever incremented, hence Nat.
* The `while` loop of add_experience is embedded as a fuel-indexed recursion
  whose fuel 100 - level is exact: one unit per successful level_up.  Once
  level >= 100 the loop body (level_up) is the identity and the guard can
  never change again, so the loop diverges; the embedding returns none in
  precisely that situation.  add_experience_loop_eq below proves the exact
  one-step unfolding, so none is a faithful big-step rendering of
  non-termination and some is the loop's actual exit state.
-/

/-- CharacterClass enum of src/models/character.py. -/
inductive CharacterClass where
  | warrior
  | mage
  | rogue
deriving DecidableEq, Repr

/-- Character row of src/models/character.py (combat-relevant columns). -/
structure Character where
  name : String
  character_class : CharacterClass
  level : Nat
  experience : Nat
  health : Rat
  max_health : Rat
  mana : Rat
  max_mana : Rat
  strength : Rat
  defense : Rat
deriving DecidableEq, Repr

/-- Character.calculate_level_up_requirements:
int(100 * (1.5 ** (level - 1))), computed exactly as
floor(100 * 3^(level-1) / 2^(level-1)) via Nat division. -/
def calculate_level_up_requirements (level : Nat) : Nat :=
  100 * 3 ^ (level - 1) / 2 ^ (level - 1)

/-- The mutation performed by a successful Character.level_up
(lines 49-55 of character.py). -/
def Character.level_up_gain (c : Character) : Character :=
  { c with
    level := c.level + 1
    max_health := c.max_health + 10
    health := c.max_health + 10
    max_mana := c.max_mana + 5
    mana := c.max_mana + 5
    strength := c.strength + 2
    defense := c.defense + 1 }

/-- Character.level_up: returns false with no mutation at level >= 100,
otherwise applies the fixed stat gains and returns true. -/
def Character.level_up (c : Character) : Bool × Character :=
  if 100 ≤ c.level then (false, c) else (true, c.level_up_gain)

/-- Fuel-indexed unrolling of the while-loop of Character.add_experience.
The guard is experience >= calculate_level_up_requirements(level); the body is
level_up(), which mutates only when level < 100.  With fuel 100 - level the
fuel runs out exactly when level reaches 100, where a true guard means the
loop can never exit (level_up no longer changes anything): that is the
none result. -/
def add_experience_loop_aux : Nat → Character → Option Character
  | 0, c =>
    if calculate_level_up_requirements c.level ≤ c.experience then none
    else some c
  | n + 1, c =>
    if calculate_level_up_requirements c.level ≤ c.experience then
      if c.level < 100 then add_experience_loop_aux n c.level_up_gain else none
    else some c

/-- The while-loop of Character.add_experience, started with its exact fuel. -/
def add_experience_loop (c : Character) : Option Character :=
  add_experience_loop_aux (100 - c.level) c

/-- Character.add_experience: experience += amount, then the level-up loop.
Returns none when the loop diverges (see add_experience_loop). -/
def Character.add_experience (c : Character) (amount : Nat) : Option Character :=
  add_experience_loop { c with experience := c.experience + amount }

/-- The fuel choice is exact: add_experience_loop satisfies the literal
one-step unfolding of the source loop. -/
theorem add_experience_loop_eq (c : Character) :
    add_experience_loop c =
      if calculate_level_up_requirements c.level ≤ c.experience then
        if c.level < 100 then add_experience_loop c.level_up_gain else none
      else some c := by
  unfold add_experience_loop
  by_cases hl : c.level < 100
  · have hfuel : 100 - c.level = (100 - (c.level + 1)) + 1 := by omega
    have hgain : (Character.level_up_gain c).level = c.level + 1 := rfl
    rw [hfuel]
    simp only [add_experience_loop_aux, hgain, hl, if_true]
  · have hfuel : 100 - c.level = 0 := by omega
    rw [hfuel]
    simp only [add_experience_loop_aux, hl, if_false]

/-- A character parked at the level-100 hard ceiling. -/
def maxLevelCharacter : Character :=
  { name := "Veteran"
    character_class := CharacterClass.warrior
    level := 100
    experience := 0
    health := 1090
    max_health := 1090
    mana := 545
    max_mana := 545
    strength := 208
    defense := 104 }

/-- Base-stat character produced by create_character (config defaults
BASE_HEALTH=100, BASE_MANA=50, BASE_STRENGTH=10, BASE_DEFENSE=5,
level=1, experience=0). -/
def starterCharacter : Character :=
  { name := "Hero"
    character_class := CharacterClass.warrior
    level := 1
    experience := 0
    health := 100
    max_health := 100
    mana := 50
    max_mana := 50
    strength := 10
    defense := 5 }

/-- ItemType enum of src/models/inventory.py. -/
inductive ItemType where
  | weapon
  | armor
  | consumable
deriving DecidableEq, Repr

/-- ItemRarity enum of src/models/inventory.py. -/
inductive ItemRarity where
  | common
  | uncommon
  | rare
  | mythical
  | legendary
  | immortal
deriving DecidableEq, Repr

/-- RARITY_MULTIPLIERS table of src/config/config.py. -/
def RARITY_MULTIPLIERS : ItemRarity → Rat
  | ItemRarity.common => 1
  | ItemRarity.uncommon => 3 / 2
  | ItemRarity.rare => 2
  | ItemRarity.mythical => 3
  | ItemRarity.legendary => 4
  | ItemRarity.immortal => 5

/-- Item row of src/models/inventory.py.  The SQLAlchemy constructor stores
the given keyword values verbatim; unspecified columns take their declared
defaults (rarity=COMMON, numeric stats 0). -/
structure Item where
  name : String
  description : String
  item_type : ItemType
  rarity : ItemRarity
  damage : Rat
  defense : Rat
  health_bonus : Rat
  mana_bonus : Rat
  strength_bonus : Rat
deriving DecidableEq, Repr

/-- Item.apply_rarity_multiplier (inventory.py lines 40-47): one call
multiplies all five stat columns by the rarity multiplier, in place. -/
def Item.apply_rarity_multiplier (i : Item) : Item :=
  { i with
    damage := i.damage * RARITY_MULTIPLIERS i.rarity
    defense := i.defense * RARITY_MULTIPLIERS i.rarity
    health_bonus := i.health_bonus * RARITY_MULTIPLIERS i.rarity
    mana_bonus := i.mana_bonus * RARITY_MULTIPLIERS i.rarity
    strength_bonus := i.strength_bonus * RARITY_MULTIPLIERS i.rarity }

/-- get_starting_items (main.py lines 225-275): the Item rows that
create_character inserts, exactly as constructed there — note that
create_character adds them verbatim and never calls apply_rarity_multiplier. -/
def get_starting_items : CharacterClass → List Item
  | CharacterClass.warrior =>
    [ { name := "Basic Sword", description := "A simple iron sword"
        item_type := ItemType.weapon, rarity := ItemRarity.common
        damage := 5, defense := 0, health_bonus := 0, mana_bonus := 0
        strength_bonus := 0 }
    , { name := "Leather Armor", description := "Basic leather protection"
        item_type := ItemType.armor, rarity := ItemRarity.common
        damage := 0, defense := 3, health_bonus := 0, mana_bonus := 0
        strength_bonus := 0 } ]
  | CharacterClass.mage =>
    [ { name := "Wooden Staff", description := "A simple magical staff"
        item_type := ItemType.weapon, rarity := ItemRarity.common
        damage := 3, defense := 0, health_bonus := 0, mana_bonus := 5
        strength_bonus := 0 }
    , { name := "Apprentice Robes", description := "Basic magical robes"
        item_type := ItemType.armor, rarity := ItemRarity.common
        damage := 0, defense := 2, health_bonus := 0, mana_bonus := 3
        strength_bonus := 0 } ]
  | CharacterClass.rogue =>
    [ { name := "Dagger", description := "A sharp dagger"
        item_type := ItemType.weapon, rarity := ItemRarity.common
        damage := 4, defense := 0, health_bonus := 0, mana_bonus := 0
        strength_bonus := 0 }
    , { name := "Leather Vest", description := "Light and flexible armor"
        item_type := ItemType.armor, rarity := ItemRarity.common
        damage := 0, defense := 2, health_bonus := 0, mana_bonus := 0
        strength_bonus := 0 } ]

/-- An Item row constructed the way create_character constructs item rows
(constructor with keyword stats, no apply_rarity_multiplier call), but with a
non-common rarity: the stored stats are the unscaled base stats. -/
def rareBasicSword : Item :=
  { name := "Basic Sword"
    description := "A simple iron sword"
    item_type := ItemType.weapon
    rarity := ItemRarity.rare
    damage := 5
    defense := 0
    health_bonus := 0
    mana_bonus := 0
    strength_bonus := 0 }

/-- InventoryItem association of src/models/inventory.py; the item template
is embedded directly in place of the item_id foreign key. -/
structure InventoryItem where
  item : Item
  quantity : Nat
deriving DecidableEq, Repr

/-- Equipment association row of src/models/inventory.py. -/
structure Equipment where
  character_id : Nat
  item_id : Nat
  slot : String
deriving DecidableEq, Repr

/-- The existence test of handle_equip_item (main.py lines 476-479):
an Equipment row for this exact (character, item) pair. -/
def is_equipped_record (character_id item_id : Nat) (e : Equipment) : Bool :=
  e.character_id == character_id && e.item_id == item_id

/-- handle_equip_item (main.py lines 475-500), state transition on the
equipment table: if a record for the (character, item) pair already exists the
call is rejected with a user-visible message ("This item is already
equipped!") and nothing is mutated (false); otherwise one Equipment row keyed
by the item's type-derived slot is inserted (true). -/
def handle_equip_item (character_id item_id : Nat) (slot : String)
    (table : List Equipment) : Bool × List Equipment :=
  match table.find? (is_equipped_record character_id item_id) with
  | some _ => (false, table)
  | none =>
    (true, table ++ [{ character_id := character_id, item_id := item_id
                       slot := slot }])

/-- handle_use_item (main.py lines 509-568), the state transition applied to
the character and the selected inventory row: non-consumables are rejected
without mutation; otherwise health and mana are raised by the item bonuses,
clamped at the maxima, and the stack is decremented, the row being deleted
when the quantity reaches zero. -/
def handle_use_item (c : Character) (ii : InventoryItem) :
    Character × Option InventoryItem :=
  if ii.item.item_type ≠ ItemType.consumable then (c, some ii)
  else
    ( { c with
        health := min c.max_health (c.health + ii.item.health_bonus)
        mana := min c.max_mana (c.mana + ii.item.mana_bonus) }
    , if ii.quantity - 1 = 0 then none
      else some { ii with quantity := ii.quantity - 1 } )

/-- MonsterType enum of src/models/monsters.py. -/
inductive MonsterType where
  | normal
  | elite
  | boss
deriving DecidableEq, Repr

/-- Monster row of src/models/monsters.py.  The same record serves as the
encounter snapshot that the combat handlers mutate: the handlers read and
write the numeric columns name/level/health/max_health/damage/defense and the
reward columns. -/
structure Monster where
  name : String
  description : String
  monster_type : MonsterType
  level : Nat
  health : Rat
  max_health : Rat
  damage : Rat
  defense : Rat
  experience_reward : Nat
  gold_reward : Nat
  drop_table : String
deriving DecidableEq, Repr

/-- DEFAULT_MONSTERS[0] of src/models/monsters.py, the fixed template cloned
by the select_monster_for_level fallback. -/
def defaultMonsterTemplate : Monster :=
  { name := "Goblin"
    description := "A small, green creature that likes to steal things."
    monster_type := MonsterType.normal
    level := 1
    health := 50
    max_health := 50
    damage := 5
    defense := 2
    experience_reward := 10
    gold_reward := 5
    drop_table := "\x7b\x7d" }

/-- DEFAULT_MONSTERS[1] of src/models/monsters.py. -/
def orcWarriorMonster : Monster :=
  { name := "Orc Warrior"
    description := "A muscular orc trained in combat."
    monster_type := MonsterType.elite
    level := 5
    health := 150
    max_health := 150
    damage := 15
    defense := 8
    experience_reward := 50
    gold_reward := 25
    drop_table := "\x7b\x7d" }

/-- DEFAULT_MONSTERS[2] of src/models/monsters.py. -/
def dragonMonster : Monster :=
  { name := "Dragon"
    description := "A fearsome dragon that guards its treasure."
    monster_type := MonsterType.boss
    level := 20
    health := 1000
    max_health := 1000
    damage := 50
    defense := 30
    experience_reward := 500
    gold_reward := 1000
    drop_table := "\x7b\x7d" }

/-- The predefined DEFAULT_MONSTERS list of src/models/monsters.py. -/
def DEFAULT_MONSTERS : List Monster :=
  [defaultMonsterTemplate, orcWarriorMonster, dragonMonster]

/-- The catalog filter of select_monster_for_level (main.py lines 646-648):
Monster.level.between(character_level - 2, character_level + 2), an inclusive
range; the subtraction is carried out in the integers. -/
def monster_level_in_range (character_level : Nat) (m : Monster) : Bool :=
  decide ((character_level : Int) - 2 ≤ (m.level : Int))
    && decide ((m.level : Int) ≤ (character_level : Int) + 2)

/-- select_monster_for_level (main.py lines 641-659).  The catalog is the
monsters table in row order; the query preserves that order, and db.add
appends.  Returns the chosen monster together with the resulting catalog. -/
def select_monster_for_level (character_level : Nat) (catalog : List Monster) :
    Monster × List Monster :=
  match catalog.filter (monster_level_in_range character_level) with
  | [] =>
    let m := { defaultMonsterTemplate with level := character_level }
    (m, catalog ++ [m])
  | m :: _ => (m, catalog)

/-- The player damage roll of handle_attack (main.py lines 694-697):
int(character.strength * uniform(0.8, 1.2)), embedded with the draw as an
explicit parameter. -/
def attack_damage (c : Character) (r : Rat) : Int :=
  ⌊c.strength * r⌋

/-- calculate_monster_damage (main.py lines 847-851):
int(monster.damage * uniform(0.8, 1.2)), draw as an explicit parameter. -/
def calculate_monster_damage (m : Monster) (r : Rat) : Int :=
  ⌊m.damage * r⌋

/-- The single player damage application of handle_attack (main.py line 700):
monster health floored at 0. -/
def apply_player_attack (m : Monster) (c : Character) (r : Rat) : Monster :=
  { m with health := max 0 (m.health - (attack_damage c r : Rat)) }

/-- The single monster counter-attack application (main.py lines 708-709 and
786-787): character health floored at 0. -/
def apply_monster_counterattack (c : Character) (m : Monster) (r : Rat) :
    Character :=
  { c with health := max 0 (c.health - (calculate_monster_damage m r : Rat)) }

/-- handle_combat_defeat (main.py lines 832-845): unconditionally restores
health and mana to their maxima; nothing else is touched. -/
def handle_combat_defeat (c : Character) : Character :=
  { c with health := c.max_health, mana := c.max_mana }

/-- Terminal/next status of one combat action. -/
inductive CombatEnd where
  | victory
  | defeat
  | inCombat
  | fled
deriving DecidableEq, Repr

/-- handle_attack (main.py lines 690-726) together with the victory and
defeat resolutions it invokes: one player damage roll is applied to the
monster; if that kills it, handle_combat_victory grants the experience reward
(none when the level-up loop diverges) and the encounter ends; otherwise
exactly one counter-attack roll is applied to the character, followed by
handle_combat_defeat if it proves fatal. -/
def handle_attack (c : Character) (m : Monster) (r1 r2 : Rat) :
    Option (Character × Monster × CombatEnd) :=
  let m' := apply_player_attack m c r1
  if m'.health ≤ 0 then
    (c.add_experience m.experience_reward).map
      (fun cv => (cv, m', CombatEnd.victory))
  else
    let c' := apply_monster_counterattack c m' r2
    if c'.health ≤ 0 then some (handle_combat_defeat c', m', CombatEnd.defeat)
    else some (c', m', CombatEnd.inCombat)

/-- handle_flee (main.py lines 776-803): random() < 0.5 ends the encounter
with no state change; on failure the monster gets one free counter-attack and
the player makes no attack, with handle_combat_defeat if it proves fatal. -/
def handle_flee (c : Character) (m : Monster) (rFlee r2 : Rat) :
    Character × Monster × CombatEnd :=
  if rFlee < 1 / 2 then (c, m, CombatEnd.fled)
  else
    let c' := apply_monster_counterattack c m r2
    if c'.health ≤ 0 then (handle_combat_defeat c', m, CombatEnd.defeat)
    else (c', m, CombatEnd.inCombat)

/-- get_consumable_items (main.py lines 928-935). -/
def get_consumable_items (inv : List InventoryItem) : List InventoryItem :=
  inv.filter (fun ii => ii.item.item_type == ItemType.consumable)

/-- handle_item_selection (main.py lines 747-774): renders the consumable
menu (CHOOSING_ITEM, or IN_COMBAT again when there are none) and performs no
mutation at all — in particular the monster never counter-attacks.  The Bool
records whether the item menu was opened. -/
def handle_item_selection (c : Character) (m : Monster)
    (inv : List InventoryItem) : (Character × Monster) × Bool :=
  ((c, m), !(get_consumable_items inv).isEmpty)

/-- The two state invariants of the character data model. -/
def CharacterInv (c : Character) : Prop :=
  c.health ≤ c.max_health ∧ c.mana ≤ c.max_mana

theorem level_up_gain_level (c : Character) :
    (Character.level_up_gain c).level = c.level + 1 := rfl

theorem level_up_gain_experience (c : Character) :
    (Character.level_up_gain c).experience = c.experience := rfl

/-- The level-up loop never changes the experience column (level_up does not
deduct experience). -/
theorem add_experience_loop_aux_experience :
    ∀ (n : Nat) (c c' : Character), 100 - c.level ≤ n →
      add_experience_loop c = some c' → c'.experience = c.experience := by
  intro n
  induction n with
  | zero =>
    intro c c' hn h
    rw [add_experience_loop_eq] at h
    have hl : ¬ c.level < 100 := by omega
    by_cases hc : calculate_level_up_requirements c.level ≤ c.experience
    · simp [hc, hl] at h
    · simp only [hc, if_false] at h
      cases h
      rfl
  | succ n ih =>
    intro c c' hn h
    rw [add_experience_loop_eq] at h
    by_cases hc : calculate_level_up_requirements c.level ≤ c.experience
    · by_cases hl : c.level < 100
      · simp only [hc, hl, if_true] at h
        have hstep : 100 - (Character.level_up_gain c).level ≤ n := by
          rw [level_up_gain_level]; omega
        have := ih c.level_up_gain c' hstep h
        rw [this, level_up_gain_experience]
      · simp [hc, hl] at h
    · simp only [hc, if_false] at h
      cases h
      rfl

/-- Granting further experience commutes with a completed run of the level-up
loop: re-running the loop from the loop's exit state with a larger experience
total gives the same result as running it from the original state. -/
theorem add_experience_loop_aux_replay :
    ∀ (n : Nat) (c c' : Character), 100 - c.level ≤ n →
      add_experience_loop c = some c' → ∀ d : Nat,
      add_experience_loop { c' with experience := c'.experience + d } =
        add_experience_loop { c with experience := c.experience + d } := by
  intro n
  induction n with
  | zero =>
    intro c c' hn h d
    rw [add_experience_loop_eq] at h
    have hl : ¬ c.level < 100 := by omega
    by_cases hc : calculate_level_up_requirements c.level ≤ c.experience
    · simp [hc, hl] at h
    · simp only [hc, if_false] at h
      cases h
      rfl
  | succ n ih =>
    intro c c' hn h d
    rw [add_experience_loop_eq] at h
    by_cases hc : calculate_level_up_requirements c.level ≤ c.experience
    · by_cases hl : c.level < 100
      · simp only [hc, hl, if_true] at h
        have hstep : 100 - (Character.level_up_gain c).level ≤ n := by
          rw [level_up_gain_level]; omega
        have h1 := ih c.level_up_gain c' hstep h d
        have h2 : add_experience_loop { c with experience := c.experience + d } =
            add_experience_loop
              { c.level_up_gain with experience := c.experience + d } := by
          rw [add_experience_loop_eq]
          have hcond : calculate_level_up_requirements
              ({ c with experience := c.experience + d } : Character).level ≤
              ({ c with experience := c.experience + d } : Character).experience :=
            le_trans hc (Nat.le_add_right _ _)
          rw [if_pos hcond]
          have hl' : ({ c with experience := c.experience + d } : Character).level < 100 := hl
          rw [if_pos hl']
          rfl
        exact h1.trans h2.symm
      · simp [hc, hl] at h
    · simp only [hc, if_false] at h
      cases h
      rfl

/-- If the level-up loop diverges from some state, it still diverges after
granting additional experience. -/
theorem add_experience_loop_aux_none :
    ∀ (n : Nat) (c : Character), 100 - c.level ≤ n →
      add_experience_loop c = none → ∀ d : Nat,
      add_experience_loop { c with experience := c.experience + d } = none := by
  intro n
  induction n with
  | zero =>
    intro c hn h d
    rw [add_experience_loop_eq] at h
    have hl : ¬ c.level < 100 := by omega
    by_cases hc : calculate_level_up_requirements c.level ≤ c.experience
    · rw [add_experience_loop_eq]
      have hcond : calculate_level_up_requirements
          ({ c with experience := c.experience + d } : Character).level ≤
          ({ c with experience := c.experience + d } : Character).experience :=
        le_trans hc (Nat.le_add_right _ _)
      rw [if_pos hcond]
      have hl' : ¬ ({ c with experience := c.experience + d } : Character).level < 100 := hl
      rw [if_neg hl']
    · simp [hc] at h
  | succ n ih =>
    intro c hn h d
    rw [add_experience_loop_eq] at h
    by_cases hc : calculate_level_up_requirements c.level ≤ c.experience
    · rw [add_experience_loop_eq]
      have hcond : calculate_level_up_requirements
          ({ c with experience := c.experience + d } : Character).level ≤
          ({ c with experience := c.experience + d } : Character).experience :=
        le_trans hc (Nat.le_add_right _ _)
      rw [if_pos hcond]
      by_cases hl : c.level < 100
      · have hl' : ({ c with experience := c.experience + d } : Character).level < 100 := hl
        rw [if_pos hl']
        simp only [hc, hl, if_true] at h
        have hstep : 100 - (Character.level_up_gain c).level ≤ n := by
          rw [level_up_gain_level]; omega
        exact ih c.level_up_gain hstep h d
      · have hl' : ¬ ({ c with experience := c.experience + d } : Character).level < 100 := hl
        rw [if_neg hl']
    · simp [hc] at h

/-- The level-up loop preserves the health/mana invariants: every successful
level_up sets health and mana to the new maxima. -/
theorem add_experience_loop_aux_inv :
    ∀ (n : Nat) (c c' : Character), 100 - c.level ≤ n →
      CharacterInv c → add_experience_loop c = some c' → CharacterInv c' := by
  intro n
  induction n with
  | zero =>
    intro c c' hn hinv h
    rw [add_experience_loop_eq] at h
    have hl : ¬ c.level < 100 := by omega
    by_cases hc : calculate_level_up_requirements c.level ≤ c.experience
    · simp [hc, hl] at h
    · simp only [hc, if_false] at h
      cases h
      exact hinv
  | succ n ih =>
    intro c c' hn hinv h
    rw [add_experience_loop_eq] at h
    by_cases hc : calculate_level_up_requirements c.level ≤ c.experience
    · by_cases hl : c.level < 100
      · simp only [hc, hl, if_true] at h
        have hstep : 100 - (Character.level_up_gain c).level ≤ n := by
          rw [level_up_gain_level]; omega
        have hinv' : CharacterInv c.level_up_gain := by
          constructor <;> simp [Character.level_up_gain]
        exact ih c.level_up_gain c' hstep hinv' h
      · simp [hc, hl] at h
    · simp only [hc, if_false] at h
      cases h
      exact hinv

/-- The expected outcome of scenario B: the starter character after one
level-up.  All fixed deltas are applied, health and mana are fully restored —
and the 100 experience points are retained, because level_up never deducts
experience. -/
def levelTwoCharacter : Character :=
  { name := "Hero"
    character_class := CharacterClass.warrior
    level := 2
    experience := 100
    health := 110
    max_health := 110
    mana := 55
    max_mana := 55
    strength := 12
    defense := 6 }

/-- C1: the claim asserts that add_experience always terminates, including at
the level-100 hard ceiling where level_up returns false without mutating.  The
code does not: the while-loop ignores level_up's false return, the state never
changes, the guard stays true, and the loop runs forever.  This theorem
evaluates the embedded loop at the failing input — a level-100 character
granted 10^20 experience (any amount at least
calculate_level_up_requirements 100 ≈ 2.8 * 10^19 triggers it): the loop
diverges, rendered as none by the exact-fuel semantics. -/
theorem add_experience_diverges_at_max_level :
    maxLevelCharacter.add_experience (10 ^ 20) = none := by decide

/-- C2 counterexample: granting 100 XP to the fresh level-1 character does
not leave 0 remaining experience, contrary to the claim — level_up never
subtracts the spent requirement, so the experience column still reads 100. -/
theorem scenarioB_experience_not_zero :
    Option.map Character.experience (starterCharacter.add_experience 100) ≠
      some 0 := by decide

/-- C2 (amended): granting 100 XP to the fresh level-1 character raises it to
level 2, adds the fixed deltas (+10 max_health, +5 max_mana, +2 strength,
+1 defense), fully restores health and mana — and retains the full 100
experience points (the requirement is a threshold on total experience, not a
spent currency). -/
theorem scenarioB_result :
    starterCharacter.add_experience 100 = some levelTwoCharacter := by
  have e1 : starterCharacter.add_experience 100 =
      add_experience_loop
        { starterCharacter with
          experience := starterCharacter.experience + 100 } := rfl
  rw [e1, add_experience_loop_eq]
  have hc1 : calculate_level_up_requirements
      ({ starterCharacter with
         experience := starterCharacter.experience + 100 } : Character).level ≤
      ({ starterCharacter with
         experience := starterCharacter.experience + 100 } : Character).experience := by
    decide
  have hl1 : ({ starterCharacter with
      experience := starterCharacter.experience + 100 } : Character).level < 100 := by
    decide
  rw [if_pos hc1, if_pos hl1, add_experience_loop_eq]
  have hc2 : ¬ calculate_level_up_requirements
      (Character.level_up_gain
        { starterCharacter with
          experience := starterCharacter.experience + 100 }).level ≤
      (Character.level_up_gain
        { starterCharacter with
          experience := starterCharacter.experience + 100 }).experience := by
    decide
  rw [if_neg hc2]
  congr 1
  norm_num [Character.level_up_gain, starterCharacter, levelTwoCharacter,
    Character.mk.injEq]

/-- C9: granting x then y experience is the same as granting x + y at once —
the loop guard compares the running experience total against the level
requirement, experience is never consumed, and each level-up is a fixed
mutation, so the second run replays exactly where the first stopped.  The
equation also covers the divergent cases: either side diverges (none) exactly
when the other does. -/
theorem add_experience_additive (c : Character) (x y : Nat) :
    (c.add_experience x).bind (fun c1 => c1.add_experience y) =
      c.add_experience (x + y) := by
  unfold Character.add_experience
  rw [show c.experience + (x + y) = c.experience + x + y from
    (Nat.add_assoc _ _ _).symm]
  cases h : add_experience_loop { c with experience := c.experience + x } with
  | none =>
    exact (add_experience_loop_aux_none _ _ le_rfl h y).symm
  | some c1 =>
    exact add_experience_loop_aux_replay _ _ c1 le_rfl h y

/-- A call of apply_rarity_multiplier on a common item is the identity
(multiplier 1.0). -/
theorem apply_rarity_multiplier_common (i : Item)
    (h : i.rarity = ItemRarity.common) : i.apply_rarity_multiplier = i := by
  have hm : RARITY_MULTIPLIERS i.rarity = 1 := by rw [h]; rfl
  simp [Item.apply_rarity_multiplier, hm]

/-- C3 counterexample: the claim says every item's stored (effective) stat
deltas equal its base stats times RARITY_MULTIPLIERS[rarity].  But item
creation (create_character, main.py lines 191-204) stores the constructor
arguments verbatim and never calls apply_rarity_multiplier, so an item row
carrying a non-common rarity keeps its unscaled base stats: the rare Basic
Sword's stored damage is 5, not 2.0 * 5. -/
theorem rare_item_stats_not_scaled :
    rareBasicSword.damage ≠
      RARITY_MULTIPLIERS rareBasicSword.rarity * 5 := by
  norm_num [rareBasicSword, RARITY_MULTIPLIERS]

/-- C3 (amended): a single call of Item.apply_rarity_multiplier multiplies
each of the five stat deltas by RARITY_MULTIPLIERS[rarity] exactly once; the
creation path never invokes it, and every item create_character actually
creates is common, where the multiplier is 1.0 and the stored stats therefore
coincide with base times multiplier. -/
theorem apply_rarity_multiplier_scales_once (i : Item) (cc : CharacterClass)
    (j : Item) (hj : j ∈ get_starting_items cc) :
    (i.apply_rarity_multiplier.damage =
        i.damage * RARITY_MULTIPLIERS i.rarity ∧
      i.apply_rarity_multiplier.defense =
        i.defense * RARITY_MULTIPLIERS i.rarity ∧
      i.apply_rarity_multiplier.health_bonus =
        i.health_bonus * RARITY_MULTIPLIERS i.rarity ∧
      i.apply_rarity_multiplier.mana_bonus =
        i.mana_bonus * RARITY_MULTIPLIERS i.rarity ∧
      i.apply_rarity_multiplier.strength_bonus =
        i.strength_bonus * RARITY_MULTIPLIERS i.rarity) ∧
    j.rarity = ItemRarity.common ∧ j.apply_rarity_multiplier = j := by
  refine ⟨⟨rfl, rfl, rfl, rfl, rfl⟩, ?_, ?_⟩
  · cases cc <;> simp only [get_starting_items, List.mem_cons,
      List.not_mem_nil, or_false] at hj <;> rcases hj with rfl | rfl <;> rfl
  · apply apply_rarity_multiplier_common
    cases cc <;> simp only [get_starting_items, List.mem_cons,
      List.not_mem_nil, or_false] at hj <;> rcases hj with rfl | rfl <;> rfl

/-- Witness for apply_rarity_multiplier_scales_once: instantiated at the rare
Basic Sword (scaling by 2.0) and at the warrior's common starting sword. -/
theorem apply_rarity_multiplier_scales_once_witness :
    (rareBasicSword.apply_rarity_multiplier.damage =
        rareBasicSword.damage * RARITY_MULTIPLIERS rareBasicSword.rarity ∧
      rareBasicSword.apply_rarity_multiplier.defense =
        rareBasicSword.defense * RARITY_MULTIPLIERS rareBasicSword.rarity ∧
      rareBasicSword.apply_rarity_multiplier.health_bonus =
        rareBasicSword.health_bonus * RARITY_MULTIPLIERS rareBasicSword.rarity ∧
      rareBasicSword.apply_rarity_multiplier.mana_bonus =
        rareBasicSword.mana_bonus * RARITY_MULTIPLIERS rareBasicSword.rarity ∧
      rareBasicSword.apply_rarity_multiplier.strength_bonus =
        rareBasicSword.strength_bonus * RARITY_MULTIPLIERS rareBasicSword.rarity) ∧
    ({ name := "Basic Sword", description := "A simple iron sword"
       item_type := ItemType.weapon, rarity := ItemRarity.common
       damage := 5, defense := 0, health_bonus := 0, mana_bonus := 0
       strength_bonus := 0 } : Item).rarity = ItemRarity.common ∧
    ({ name := "Basic Sword", description := "A simple iron sword"
       item_type := ItemType.weapon, rarity := ItemRarity.common
       damage := 5, defense := 0, health_bonus := 0, mana_bonus := 0
       strength_bonus := 0 } : Item).apply_rarity_multiplier =
      { name := "Basic Sword", description := "A simple iron sword"
        item_type := ItemType.weapon, rarity := ItemRarity.common
        damage := 5, defense := 0, health_bonus := 0, mana_bonus := 0
        strength_bonus := 0 } :=
  apply_rarity_multiplier_scales_once rareBasicSword CharacterClass.warrior
    _ (List.mem_cons_self _ _)

/-- C6: defeat resolution restores health to max_health and mana to max_mana
unconditionally — for every pre-defeat value, in particular health 0 — and
changes no other column of the character (and touches no inventory or
equipment row at all). -/
theorem handle_combat_defeat_full_restore (c : Character) :
    (handle_combat_defeat c).health = c.max_health ∧
    (handle_combat_defeat c).mana = c.max_mana ∧
    (handle_combat_defeat c).name = c.name ∧
    (handle_combat_defeat c).character_class = c.character_class ∧
    (handle_combat_defeat c).level = c.level ∧
    (handle_combat_defeat c).experience = c.experience ∧
    (handle_combat_defeat c).max_health = c.max_health ∧
    (handle_combat_defeat c).max_mana = c.max_mana ∧
    (handle_combat_defeat c).strength = c.strength ∧
    (handle_combat_defeat c).defense = c.defense :=
  ⟨rfl, rfl, rfl, rfl, rfl, rfl, rfl, rfl, rfl, rfl⟩

/-- C10: neither defense column feeds into the damage model.  Characters or
monsters differing only in their defense field produce the identical attack
damage floor(strength * r) and identical counter-attack damage
floor(monster.damage * r), and hence identical health outcomes for both
damage applications, under the same random draws. -/
theorem damage_ignores_defense (c : Character) (m : Monster)
    (d dm r r2 : Rat) :
    attack_damage { c with defense := d } r = attack_damage c r ∧
    calculate_monster_damage { m with defense := dm } r2 =
      calculate_monster_damage m r2 ∧
    (apply_player_attack { m with defense := dm } { c with defense := d }
        r).health = (apply_player_attack m c r).health ∧
    (apply_monster_counterattack { c with defense := d }
        { m with defense := dm } r2).health =
      (apply_monster_counterattack c m r2).health :=
  ⟨rfl, rfl, rfl, rfl⟩

/-- The counter-attack damage roll is non-negative whenever the monster's
damage stat is non-negative and the variance draw is in [0.8, 1.2]. -/
theorem calculate_monster_damage_nonneg (m : Monster) (r : Rat)
    (hdmg : 0 ≤ m.damage) (hr : 8 / 10 ≤ r) :
    0 ≤ calculate_monster_damage m r := by
  apply Int.floor_nonneg.mpr
  have hr0 : (0 : Rat) ≤ r := le_trans (by norm_num) hr
  exact mul_nonneg hdmg hr0

/-- One monster counter-attack keeps the health invariant: the result is
max 0 (health - damage) with a non-negative damage roll. -/
theorem apply_monster_counterattack_inv (c : Character) (m : Monster)
    (r : Rat) (hinv : CharacterInv c) (hmaxh : 0 ≤ c.max_health)
    (hdmg : 0 ≤ m.damage) (hr : 8 / 10 ≤ r) :
    CharacterInv (apply_monster_counterattack c m r) := by
  constructor
  · show max 0 (c.health - (calculate_monster_damage m r : Rat)) ≤ c.max_health
    apply max_le hmaxh
    have hd : (0 : Rat) ≤ (calculate_monster_damage m r : Rat) := by
      exact_mod_cast calculate_monster_damage_nonneg m r hdmg hr
    have := hinv.1
    linarith
  · exact hinv.2

/-- Defeat restoration trivially satisfies the invariants. -/
theorem handle_combat_defeat_inv (c : Character) :
    CharacterInv (handle_combat_defeat c) :=
  ⟨le_refl _, le_refl _⟩

/-- An example consumable stack used to instantiate the theorems below. -/
def healthPotionStack : InventoryItem :=
  { item :=
      { name := "Health Potion"
        description := "Restores some health"
        item_type := ItemType.consumable
        rarity := ItemRarity.common
        damage := 0
        defense := 0
        health_bonus := 20
        mana_bonus := 10
        strength_bonus := 0 }
    quantity := 2 }

/-- C4: every character-mutating operation of the engine preserves the
invariants health <= max_health and mana <= max_mana: level_up, the
experience grant (whenever its loop terminates), consumable use, a monster
counter-attack, the flee handler (both failure paths and success), and defeat
resolution.  The non-negativity side conditions (max_health, monster damage,
variance draw at least 0.8) reflect the data model's non-negative columns and
the lower end of random.uniform(0.8, 1.2). -/
theorem character_invariants_preserved (c : Character) (m : Monster)
    (ii : InventoryItem) (a : Nat) (rFlee r : Rat)
    (hinv : CharacterInv c) (hmaxh : 0 ≤ c.max_health)
    (hdmg : 0 ≤ m.damage) (hr1 : 8 / 10 ≤ r) :
    CharacterInv c.level_up.2 ∧
    (c.add_experience a).elim True CharacterInv ∧
    CharacterInv (handle_use_item c ii).1 ∧
    CharacterInv (apply_monster_counterattack c m r) ∧
    CharacterInv (handle_flee c m rFlee r).1 ∧
    CharacterInv (handle_combat_defeat c) := by
  refine ⟨?_, ?_, ?_, ?_, ?_, handle_combat_defeat_inv c⟩
  · unfold Character.level_up
    by_cases h : 100 ≤ c.level
    · simpa [h] using hinv
    · simp only [h, if_false]
      exact ⟨le_refl _, le_refl _⟩
  · cases hres : c.add_experience a with
    | none => trivial
    | some c1 =>
      show CharacterInv c1
      exact add_experience_loop_aux_inv _
        { c with experience := c.experience + a } c1 le_rfl hinv hres
  · unfold handle_use_item
    by_cases h : ii.item.item_type ≠ ItemType.consumable
    · simpa [h] using hinv
    · simp only [h, if_false]
      exact ⟨min_le_left _ _, min_le_left _ _⟩
  · exact apply_monster_counterattack_inv c m r hinv hmaxh hdmg hr1
  · unfold handle_flee
    by_cases hFlee : rFlee < 1 / 2
    · rw [if_pos hFlee]
      exact hinv
    · rw [if_neg hFlee]
      by_cases hDead :
          (apply_monster_counterattack c m r).health ≤ 0
      · rw [if_pos hDead]
        exact handle_combat_defeat_inv _
      · rw [if_neg hDead]
        exact apply_monster_counterattack_inv c m r hinv hmaxh hdmg hr1

/-- Witness for character_invariants_preserved: the starter character, the
Goblin template, a health-potion stack, a 100 XP grant, a failed-flee draw
0.7 and variance draw 1.0. -/
theorem character_invariants_preserved_witness :
    CharacterInv starterCharacter.level_up.2 ∧
    (starterCharacter.add_experience 100).elim True CharacterInv ∧
    CharacterInv (handle_use_item starterCharacter healthPotionStack).1 ∧
    CharacterInv
      (apply_monster_counterattack starterCharacter defaultMonsterTemplate 1) ∧
    CharacterInv
      (handle_flee starterCharacter defaultMonsterTemplate (7 / 10) 1).1 ∧
    CharacterInv (handle_combat_defeat starterCharacter) :=
  character_invariants_preserved starterCharacter defaultMonsterTemplate
    healthPotionStack 100 (7 / 10) 1 ⟨le_refl _, le_refl _⟩
    (by norm_num [starterCharacter]) (by norm_num [defaultMonsterTemplate])
    (by norm_num)

/-- C5: per-invocation effect counting of the combat actions.  The Item
action mutates neither character nor monster (so no counter-attack), a
successful flee ends the encounter with both states unchanged, a failed flee
applies exactly one counter-attack to the character (possibly followed by the
defeat restoration) and none to the monster, and Attack applies exactly one
player damage roll to the monster and — only when the monster survives —
exactly one counter-attack to the character (again possibly followed by the
defeat restoration); on victory the character is only changed by the
experience grant, never by a counter-attack. -/
theorem combat_actions_frame_effects (c : Character) (m : Monster)
    (inv : List InventoryItem) (r1 r2 rFlee : Rat) :
    (handle_item_selection c m inv).1 = (c, m) ∧
    (rFlee < 1 / 2 →
      handle_flee c m rFlee r2 = (c, m, CombatEnd.fled)) ∧
    (¬ rFlee < 1 / 2 →
      (handle_flee c m rFlee r2).2.1 = m ∧
      ((handle_flee c m rFlee r2).1 = apply_monster_counterattack c m r2 ∨
       (handle_flee c m rFlee r2).1 =
         handle_combat_defeat (apply_monster_counterattack c m r2))) ∧
    ((apply_player_attack m c r1).health ≤ 0 →
      handle_attack c m r1 r2 =
        (c.add_experience m.experience_reward).map
          (fun cv => (cv, apply_player_attack m c r1, CombatEnd.victory))) ∧
    (¬ (apply_player_attack m c r1).health ≤ 0 →
      (handle_attack c m r1 r2 =
        some (apply_monster_counterattack c (apply_player_attack m c r1) r2,
              apply_player_attack m c r1, CombatEnd.inCombat) ∨
       handle_attack c m r1 r2 =
        some (handle_combat_defeat
                (apply_monster_counterattack c (apply_player_attack m c r1) r2),
              apply_player_attack m c r1, CombatEnd.defeat))) := by
  refine ⟨rfl, ?_, ?_, ?_, ?_⟩
  · intro h
    unfold handle_flee
    rw [if_pos h]
  · intro h
    unfold handle_flee
    rw [if_neg h]
    by_cases hDead : (apply_monster_counterattack c m r2).health ≤ 0
    · rw [if_pos hDead]
      exact ⟨rfl, Or.inr rfl⟩
    · rw [if_neg hDead]
      exact ⟨rfl, Or.inl rfl⟩
  · intro h
    unfold handle_attack
    rw [if_pos h]
  · intro h
    unfold handle_attack
    rw [if_neg h]
    by_cases hDead :
        (apply_monster_counterattack c (apply_player_attack m c r1) r2).health ≤ 0
    · rw [if_pos hDead]
      exact Or.inr rfl
    · rw [if_neg hDead]
      exact Or.inl rfl

/-- Witness for combat_actions_frame_effects: a successful flee with draw
0.25 leaves the starter character and the Goblin untouched, and the Item
action with an empty inventory mutates nothing. -/
theorem combat_actions_frame_effects_witness :
    handle_flee starterCharacter defaultMonsterTemplate (1 / 4) 1 =
      (starterCharacter, defaultMonsterTemplate, CombatEnd.fled) ∧
    (handle_item_selection starterCharacter defaultMonsterTemplate []).1 =
      (starterCharacter, defaultMonsterTemplate) := by
  constructor
  · exact (combat_actions_frame_effects starterCharacter
      defaultMonsterTemplate [] 1 1 (1 / 4)).2.1 (by norm_num)
  · exact (combat_actions_frame_effects starterCharacter
      defaultMonsterTemplate [] 1 1 (1 / 4)).1

/-- C7: equipping an item that has no Equipment record yet succeeds and
inserts exactly one association for the (character, item) pair; immediately
re-equipping the same item instance is rejected (user-visible message, no
exception) and mutates nothing, so exactly one association remains. -/
theorem handle_equip_item_no_double_equip (character_id item_id : Nat)
    (slot : String) (table : List Equipment)
    (h : table.countP (is_equipped_record character_id item_id) = 0) :
    (handle_equip_item character_id item_id slot table).1 = true ∧
    (handle_equip_item character_id item_id slot table).2.countP
      (is_equipped_record character_id item_id) = 1 ∧
    handle_equip_item character_id item_id slot
        (handle_equip_item character_id item_id slot table).2 =
      (false, (handle_equip_item character_id item_id slot table).2) := by
  have hfind : table.find? (is_equipped_record character_id item_id) = none :=
    List.find?_eq_none.mpr (List.countP_eq_zero.mp h)
  have hnew : is_equipped_record character_id item_id
      { character_id := character_id, item_id := item_id, slot := slot } =
        true := by
    simp [is_equipped_record]
  have h1 : handle_equip_item character_id item_id slot table =
      (true, table ++
        [{ character_id := character_id, item_id := item_id, slot := slot }]) := by
    unfold handle_equip_item
    rw [hfind]
  refine ⟨by rw [h1], ?_, ?_⟩
  · rw [h1]
    rw [List.countP_append, h, List.countP_cons_of_pos _ _ hnew]
    simp
  · rw [h1]
    have h2' : List.find? (is_equipped_record character_id item_id)
        ([{ character_id := character_id, item_id := item_id, slot := slot }] :
          List Equipment) =
        some { character_id := character_id, item_id := item_id
               slot := slot } := by
      rw [List.find?_cons, hnew]
    have h2 : (table ++
        ([{ character_id := character_id, item_id := item_id, slot := slot }] :
          List Equipment)).find?
          (is_equipped_record character_id item_id) =
        some { character_id := character_id, item_id := item_id
               slot := slot } := by
      rw [List.find?_append, hfind, Option.none_or, h2']
    unfold handle_equip_item
    rw [h2]

/-- Witness for handle_equip_item_no_double_equip: first equip on an empty
equipment table inserts the one record, the second call is rejected and
leaves the table unchanged. -/
theorem handle_equip_item_no_double_equip_witness :
    (handle_equip_item 1 2 "weapon" []).1 = true ∧
    (handle_equip_item 1 2 "weapon" []).2.countP (is_equipped_record 1 2) = 1 ∧
    handle_equip_item 1 2 "weapon" (handle_equip_item 1 2 "weapon" []).2 =
      (false, (handle_equip_item 1 2 "weapon" []).2) :=
  handle_equip_item_no_double_equip 1 2 "weapon" [] rfl

/-- The head of a non-empty stable filter is the first match of the list. -/
theorem find?_of_filter_eq_cons {α : Type} (p : α → Bool) :
    ∀ (l : List α) (a : α) (t : List α),
      l.filter p = a :: t → l.find? p = some a := by
  intro l
  induction l with
  | nil =>
    intro a t h
    simp at h
  | cons x xs ih =>
    intro a t h
    by_cases hx : p x = true
    · rw [List.filter_cons, if_pos hx] at h
      cases h
      simp [List.find?_cons, hx]
    · rw [List.filter_cons, if_neg hx] at h
      simp [List.find?_cons, hx]
      simpa using ih a t h

/-- C8: monster selection is deterministic.  When some catalog entry has
level within [character_level - 2, character_level + 2], the first such entry
in catalog order is returned and the catalog is unchanged; when none
matches, the fixed Goblin template (DEFAULT_MONSTERS[0]) is cloned with its
level overridden to the character's level, appended to the catalog, and
returned. -/
theorem select_monster_for_level_spec (character_level : Nat)
    (catalog : List Monster) :
    (∀ (m : Monster) (rest : List Monster),
      catalog.filter (monster_level_in_range character_level) = m :: rest →
      select_monster_for_level character_level catalog = (m, catalog) ∧
      catalog.find? (monster_level_in_range character_level) = some m) ∧
    (catalog.filter (monster_level_in_range character_level) = [] →
      select_monster_for_level character_level catalog =
        ({ defaultMonsterTemplate with level := character_level },
          catalog ++ [{ defaultMonsterTemplate with level := character_level }])) := by
  constructor
  · intro m rest h
    constructor
    · unfold select_monster_for_level
      rw [h]
    · exact find?_of_filter_eq_cons _ catalog m rest h
  · intro h
    unfold select_monster_for_level
    rw [h]

/-- Witness for select_monster_for_level_spec: at character level 1 the Orc
Warrior (level 5) is out of range and the Goblin (level 1) is the first
match, so it is selected and the catalog is untouched. -/
theorem select_monster_for_level_spec_witness :
    select_monster_for_level 1 [orcWarriorMonster, defaultMonsterTemplate] =
      (defaultMonsterTemplate, [orcWarriorMonster, defaultMonsterTemplate]) ∧
    List.find? (monster_level_in_range 1)
        [orcWarriorMonster, defaultMonsterTemplate] =
      some defaultMonsterTemplate :=
  (select_monster_for_level_spec 1
    [orcWarriorMonster, defaultMonsterTemplate]).1 defaultMonsterTemplate []
    (by rfl)
